import Mathlib

/-!
Verification of the `json_convenience` library (`src/_core/jsonx.py`).

The library operates on JSON documents stored in files: path-based
accessors and mutators (`getProperty`, `setProperty`, `addProperty`,
`containsProperty` and their `Object` counterparts), a syntax check
(`isFormatCorrect`) and a re-indentation helper (`indentJSONFile`).

Embedding choices:
* A JSON value (what Python's `json.load` can return) is the inductive
  `JSON` below; Python `dict` values are association lists preserving
  insertion order, as Python 3.7+ dicts do.
* Python exceptions become the error type `JErr`; a function that may
  raise returns `Except JErr α`.  Unhandled Python runtime errors that
  the library can hit (`AttributeError` from calling `.keys()` on a
  non-dict, `IndexError` from `keys[-1]` on an empty tuple) get their
  own constructors.
* The file system is reduced to the content of the single file a call
  touches: `FileContent` is `absent`, `malformed` (bytes that do not
  parse), or `doc j n` (bytes that parse to the tree `j`; the flag `n`
  records whether the bytes are exactly `json.dump(j, indent=4)`, the
  unique serialization every write of this library produces).  Each
  public operation maps the old content to a result and the new
  content, mirroring the source's read / compute / write structure.
* In-place mutation of the resolved sub-dict (`parentObject[k] = v`)
  becomes a functional update of the document at the resolved path
  (`setAtKeys`); this is faithful because a freshly parsed tree has no
  aliasing between distinct paths.
-/

/-- A JSON value as produced by `json.load`: the Python types
`NoneType`, `bool`, `int`/`float`, `str`, `list`, `dict`. -/
inductive JSON where
  | null : JSON
  | bool (b : Bool) : JSON
  | num (n : Int) : JSON
  | str (s : String) : JSON
  | arr (elems : List JSON) : JSON
  | obj (entries : List (String × JSON)) : JSON


/-- Errors of `jsonx.py`: its four exception classes, the two library
errors it raises explicitly (`TypeError`, `FileNotFoundError`,
`JSONDecodeError`), and the two unhandled runtime errors reachable in
its code (`AttributeError`, `IndexError`). -/
inductive JErr where
  | fileNotFound : JErr
  | decodeError : JErr
  | keyNotFound (wrongKey : String) (allKeysOfObject : List String)
      (foundKeys : List String) : JErr
  | keyAlreadyExists (doubleKey : String) (allKeysOfObject : List String)
      (foundKeys : List String) : JErr
  | notAProperty (v : JSON) : JErr
  | notAObject (v : JSON) : JErr
  | typeError : JErr
  | attributeError : JErr
  | indexError : JErr


/-- `_isJSONProperty` (jsonx.py line 193): membership of `type(rawData)`
in `[type(None), float, int, list, bool, str]`. -/
def isJSONProperty : JSON → Bool
  | .null => true
  | .num _ => true
  | .arr _ => true
  | .bool _ => true
  | .str _ => true
  | .obj _ => false

/-- `_isJSONObject` (jsonx.py line 196): `type(rawData) == dict`. -/
def isJSONObject : JSON → Bool
  | .obj _ => true
  | _ => false

/-- The Python values the library's entry points can actually receive:
either a value of a JSON-mapped type, or a value of any other runtime
type (`tuple`, `set`, a user class, ...), which `json.load` never
produces but a caller may pass as the `value` argument. -/
inductive PyVal where
  | json (j : JSON) : PyVal
  | otherShape : PyVal


/-- `_isJSONProperty` on the full Python value domain: a type outside
`[type(None), float, int, list, bool, str]` is not in the list, so the
membership test is `False` for it. -/
def pyIsJSONProperty : PyVal → Bool
  | .json j => isJSONProperty j
  | .otherShape => false

/-- `_isJSONObject` on the full Python value domain: only `dict`. -/
def pyIsJSONObject : PyVal → Bool
  | .json j => isJSONObject j
  | .otherShape => false

/-- First-match lookup in an association list: Python's `d[k]` (keys of
a parsed dict are unique, so first match is the match). -/
def lookupKey : List (String × JSON) → String → Option JSON
  | [], _ => none
  | (k', v) :: rest, k => if k' = k then some v else lookupKey rest k

/-- `tuple(d.keys())` for a dict; `[]` on non-dicts (the library only
evaluates `.keys()` on values it has already navigated as dicts). -/
def jsonKeys : JSON → List String
  | .obj kvs => kvs.map Prod.fst
  | _ => []

/-- Python's `d[k] = v`: overwrite in place if `k` is present (keeping
its position), append otherwise. -/
def dictInsert : List (String × JSON) → String → JSON → List (String × JSON)
  | [], k, v => [(k, v)]
  | (k', v') :: rest, k, v =>
      if k' = k then (k, v) :: rest else (k', v') :: dictInsert rest k v

/-- The loop body of `_getValueOfKeys` (jsonx.py lines 185-191),
accumulating the prefix `keys[:i]` already consumed.  At each step the
source calls `_containsKey(currentObject, keys[i])`, i.e.
`keys[i] in currentObject.keys()`:
* on a non-dict current node, `.keys()` raises `AttributeError`;
* on a dict missing the key, it raises
  `JSONKeyNotFoundError(keys[i], tuple(rawData.keys()), keys[:i])` —
  note the source passes the keys of the ROOT `rawData`, not of the
  current object;
* otherwise it descends into `currentObject[keys[i]]`. -/
def getValueAux (rawData : JSON) (foundKeys : List String) (cur : JSON) :
    List String → Except JErr JSON
  | [] => .ok cur
  | k :: ks =>
    match cur with
    | .obj kvs =>
      match lookupKey kvs k with
      | some v => getValueAux rawData (foundKeys ++ [k]) v ks
      | none => .error (.keyNotFound k (jsonKeys rawData) foundKeys)
    | _ => .error .attributeError

/-- `_getValueOfKeys(rawData, keys)` (jsonx.py lines 185-191). -/
def getValueOfKeys (rawData : JSON) (keys : List String) : Except JErr JSON :=
  getValueAux rawData [] rawData keys

/-- Functional image of the in-place mutation `parent[k] = v` performed
after a successful resolution: replace the node reached by `keys` with
`newVal`.  On a path that does not navigate (never the case after a
successful resolution) it leaves the tree unchanged. -/
def setAtKeys : JSON → List String → JSON → JSON
  | _, [], newVal => newVal
  | .obj kvs, k :: ks, newVal =>
    match lookupKey kvs k with
    | some sub => .obj (dictInsert kvs k (setAtKeys sub ks newVal))
    | none => .obj kvs
  | other, _ :: _, _ => other

/-- The pure part of `getProperty` (jsonx.py lines 93-97) after the
file read: resolve, then require the result not be a dict. -/
def getPropertyCore (rawData : JSON) (keys : List String) : Except JErr JSON :=
  match getValueOfKeys rawData keys with
  | .error e => .error e
  | .ok property =>
    if isJSONObject property then .error (.notAProperty property)
    else .ok property

/-- The pure part of `getObject` (jsonx.py lines 128-132). -/
def getObjectCore (rawData : JSON) (keys : List String) : Except JErr JSON :=
  match getValueOfKeys rawData keys with
  | .error e => .error e
  | .ok object =>
    if isJSONProperty object then .error (.notAObject object)
    else .ok object

/-- The pure part of `containsProperty` (jsonx.py lines 120-125): only
`JSONKeyNotFoundError` is caught and turned into `False`; every other
failure of the resolution propagates. -/
def containsPropertyCore (rawData : JSON) (keys : List String) : Except JErr Bool :=
  match getValueOfKeys rawData keys with
  | .ok value => .ok (isJSONProperty value)
  | .error (.keyNotFound _ _ _) => .ok false
  | .error e => .error e

/-- The pure part of `containsObject` (jsonx.py lines 155-160). -/
def containsObjectCore (rawData : JSON) (keys : List String) : Except JErr Bool :=
  match getValueOfKeys rawData keys with
  | .ok value => .ok (isJSONObject value)
  | .error (.keyNotFound _ _ _) => .ok false
  | .error e => .error e

/-- The pure part of `setProperty` (jsonx.py lines 100-107), returning
the mutated document to be written.  The source resolves `keys[:-1]`,
then evaluates `keys[-1]` (an `IndexError` on an empty tuple), then
runs `_containsKey(parentObject, keys[-1])` (an `AttributeError` on a
non-dict parent, `JSONKeyNotFoundError` with the PARENT's keys if
absent), then rejects an existing dict value with `NotAPropertyError`,
and finally overwrites. -/
def setPropertyCore (rawData : JSON) (keys : List String) (value : JSON) :
    Except JErr JSON :=
  match getValueOfKeys rawData keys.dropLast with
  | .error e => .error e
  | .ok parentObject =>
    match keys.getLast? with
    | none => .error .indexError
    | some lastKey =>
      match parentObject with
      | .obj kvs =>
        match lookupKey kvs lastKey with
        | none => .error (.keyNotFound lastKey (kvs.map Prod.fst) keys.dropLast)
        | some existing =>
          if isJSONObject existing then .error (.notAProperty existing)
          else .ok (setAtKeys rawData keys.dropLast
              (.obj (dictInsert kvs lastKey value)))
      | _ => .error .attributeError

/-- The pure part of `setObject` (jsonx.py lines 135-142): identical to
`setPropertyCore` with the category check flipped (`NotAObjectError`
when the existing value is NOT a dict). -/
def setObjectCore (rawData : JSON) (keys : List String) (object : JSON) :
    Except JErr JSON :=
  match getValueOfKeys rawData keys.dropLast with
  | .error e => .error e
  | .ok parentObject =>
    match keys.getLast? with
    | none => .error .indexError
    | some lastKey =>
      match parentObject with
      | .obj kvs =>
        match lookupKey kvs lastKey with
        | none => .error (.keyNotFound lastKey (kvs.map Prod.fst) keys.dropLast)
        | some existing =>
          if isJSONProperty existing then .error (.notAObject existing)
          else .ok (setAtKeys rawData keys.dropLast
              (.obj (dictInsert kvs lastKey object)))
      | _ => .error .attributeError

/-- The pure part of `addProperty` (jsonx.py lines 110-117): resolve
`keys` to the parent (an `AttributeError` if it is not a dict when
`_containsKey` runs), reject a present `newKey` with
`JSONKeyAlreadyExists(newKey, tuple(parent.keys()), keys)`, reject a
non-property-shaped value with `TypeError`, then insert.  The `value`
argument ranges over arbitrary Python values (`PyVal`). -/
def addPropertyCore (rawData : JSON) (keys : List String) (newKey : String)
    (value : PyVal) : Except JErr JSON :=
  match getValueOfKeys rawData keys with
  | .error e => .error e
  | .ok parentObject =>
    match parentObject with
    | .obj kvs =>
      if (lookupKey kvs newKey).isSome then
        .error (.keyAlreadyExists newKey (kvs.map Prod.fst) keys)
      else if !pyIsJSONProperty value then .error .typeError
      else
        match value with
        | .json v => .ok (setAtKeys rawData keys (.obj (dictInsert kvs newKey v)))
        | .otherShape => .error .typeError
    | _ => .error .attributeError

/-- The pure part of `addObject` (jsonx.py lines 145-152): as
`addPropertyCore` with the value required to be a dict. -/
def addObjectCore (rawData : JSON) (keys : List String) (newKey : String)
    (object : PyVal) : Except JErr JSON :=
  match getValueOfKeys rawData keys with
  | .error e => .error e
  | .ok parentObject =>
    match parentObject with
    | .obj kvs =>
      if (lookupKey kvs newKey).isSome then
        .error (.keyAlreadyExists newKey (kvs.map Prod.fst) keys)
      else if !pyIsJSONObject object then .error .typeError
      else
        match object with
        | .json v => .ok (setAtKeys rawData keys (.obj (dictInsert kvs newKey v)))
        | .otherShape => .error .typeError
    | _ => .error .attributeError

/-- The content of the storage location a call operates on. -/
inductive FileContent where
  | absent : FileContent
  | malformed (bytes : String) : FileContent
  | doc (j : JSON) (normalized : Bool) : FileContent


/-- `readJSONFile` (jsonx.py lines 173-177): `FileNotFoundError` when
the location does not exist, `JSONDecodeError` from `json.load` when
the bytes do not parse, otherwise the parsed tree.  Reading never
changes the file. -/
def readJSONFile : FileContent → Except JErr JSON × FileContent
  | .absent => (.error .fileNotFound, .absent)
  | .malformed s => (.error .decodeError, .malformed s)
  | .doc j n => (.ok j, .doc j n)

/-- `writeJSONFile` (jsonx.py lines 179-183): `FileNotFoundError` when
the location does not exist (the library never creates files),
otherwise the bytes become `json.dump(data, indent=4)` — a normalized
serialization of `data`. -/
def writeJSONFile : FileContent → JSON → Except JErr Unit × FileContent
  | .absent, _ => (.error .fileNotFound, .absent)
  | .malformed _, data => (.ok (), .doc data true)
  | .doc _ _, data => (.ok (), .doc data true)

/-- `getProperty(filePath, keys)` (jsonx.py lines 82-97). -/
def getProperty (st : FileContent) (keys : List String) :
    Except JErr JSON × FileContent :=
  match readJSONFile st with
  | (.error e, st') => (.error e, st')
  | (.ok rawData, st') => (getPropertyCore rawData keys, st')

/-- `getObject(filePath, keys)` (jsonx.py lines 127-132). -/
def getObject (st : FileContent) (keys : List String) :
    Except JErr JSON × FileContent :=
  match readJSONFile st with
  | (.error e, st') => (.error e, st')
  | (.ok rawData, st') => (getObjectCore rawData keys, st')

/-- `containsProperty(filePath, keys)` (jsonx.py lines 119-125). -/
def containsProperty (st : FileContent) (keys : List String) :
    Except JErr Bool × FileContent :=
  match readJSONFile st with
  | (.error e, st') => (.error e, st')
  | (.ok rawData, st') => (containsPropertyCore rawData keys, st')

/-- `containsObject(filePath, keys)` (jsonx.py lines 154-160). -/
def containsObject (st : FileContent) (keys : List String) :
    Except JErr Bool × FileContent :=
  match readJSONFile st with
  | (.error e, st') => (.error e, st')
  | (.ok rawData, st') => (containsObjectCore rawData keys, st')

/-- `isFormatCorrect(filePath)` (jsonx.py lines 162-168): only
`JSONDecodeError` is caught and mapped to `False`; a missing file
raises (from `open` / `readJSONFile`) and is not converted. -/
def isFormatCorrect (st : FileContent) : Except JErr Bool × FileContent :=
  match readJSONFile st with
  | (.ok _, st') => (.ok true, st')
  | (.error .decodeError, st') => (.ok false, st')
  | (.error e, st') => (.error e, st')

/-- `setProperty(filePath, keys, value)` (jsonx.py lines 99-107): read,
compute, write only on success. -/
def setProperty (st : FileContent) (keys : List String) (value : JSON) :
    Except JErr Unit × FileContent :=
  match readJSONFile st with
  | (.error e, st') => (.error e, st')
  | (.ok rawData, st') =>
    match setPropertyCore rawData keys value with
    | .error e => (.error e, st')
    | .ok newData => writeJSONFile st' newData

/-- `setObject(filePath, keys, object)` (jsonx.py lines 134-142). -/
def setObject (st : FileContent) (keys : List String) (object : JSON) :
    Except JErr Unit × FileContent :=
  match readJSONFile st with
  | (.error e, st') => (.error e, st')
  | (.ok rawData, st') =>
    match setObjectCore rawData keys object with
    | .error e => (.error e, st')
    | .ok newData => writeJSONFile st' newData

/-- `addProperty(filePath, keys, newKey, value)` (jsonx.py lines 109-117). -/
def addProperty (st : FileContent) (keys : List String) (newKey : String)
    (value : PyVal) : Except JErr Unit × FileContent :=
  match readJSONFile st with
  | (.error e, st') => (.error e, st')
  | (.ok rawData, st') =>
    match addPropertyCore rawData keys newKey value with
    | .error e => (.error e, st')
    | .ok newData => writeJSONFile st' newData

/-- `addObject(filePath, keys, newKey, object)` (jsonx.py lines 144-152). -/
def addObject (st : FileContent) (keys : List String) (newKey : String)
    (object : PyVal) : Except JErr Unit × FileContent :=
  match readJSONFile st with
  | (.error e, st') => (.error e, st')
  | (.ok rawData, st') =>
    match addObjectCore rawData keys newKey object with
    | .error e => (.error e, st')
    | .ok newData => writeJSONFile st' newData

/-- `indentJSONFile(filePath)` (jsonx.py lines 170-171): read then
write the unchanged tree, normalizing the serialization. -/
def indentJSONFile (st : FileContent) : Except JErr Unit × FileContent :=
  match readJSONFile st with
  | (.error e, st') => (.error e, st')
  | (.ok rawData, st') => writeJSONFile st' rawData

/-- Whether a result is a `JSONKeyNotFoundError` (of any payload). -/
def isKeyNotFoundResult {α : Type} : Except JErr α → Bool
  | .error (.keyNotFound _ _ _) => true
  | _ => false

/-! ## Basic lemmas about lookup, insertion and resolution -/

/-- Looking up the inserted key finds the inserted value. -/
theorem lookupKey_dictInsert (kvs : List (String × JSON)) (k : String) (v : JSON) :
    lookupKey (dictInsert kvs k v) k = some v := by
  induction kvs with
  | nil => simp [dictInsert, lookupKey]
  | cons p rest ih =>
    obtain ⟨k', v'⟩ := p
    by_cases h : k' = k <;> simp [dictInsert, lookupKey, h, ih]

/-- A successful resolution does not depend on the diagnostic
parameters (the root passed for error reporting and the accumulated
prefix). -/
theorem getValueAux_ok_irrel :
    ∀ (ks : List String) (r1 : JSON) (f1 : List String) (cur v : JSON),
    getValueAux r1 f1 cur ks = .ok v →
    ∀ (r2 : JSON) (f2 : List String), getValueAux r2 f2 cur ks = .ok v := by
  intro ks
  induction ks with
  | nil =>
    intro r1 f1 cur v h r2 f2
    simpa [getValueAux] using h
  | cons k ks ih =>
    intro r1 f1 cur v h r2 f2
    cases cur
    case obj kvs =>
      simp only [getValueAux] at h ⊢
      cases hl : lookupKey kvs k with
      | some w =>
        simp only [hl] at h ⊢
        exact ih r1 (f1 ++ [k]) w v h r2 (f2 ++ [k])
      | none => simp [hl] at h
    all_goals simp [getValueAux] at h

/-- Replacing the node at a path that resolves makes the same path
resolve to the replacement. -/
theorem getValueAux_setAtKeys :
    ∀ (ks : List String) (r1 : JSON) (f1 : List String) (cur v : JSON),
    getValueAux r1 f1 cur ks = .ok v →
    ∀ (w r2 : JSON) (f2 : List String),
    getValueAux r2 f2 (setAtKeys cur ks w) ks = .ok w := by
  intro ks
  induction ks with
  | nil =>
    intro r1 f1 cur v h w r2 f2
    simp [getValueAux, setAtKeys]
  | cons k ks ih =>
    intro r1 f1 cur v h w r2 f2
    cases cur
    case obj kvs =>
      simp only [getValueAux] at h
      cases hl : lookupKey kvs k with
      | some sub =>
        simp only [hl] at h
        simp only [setAtKeys, hl, getValueAux, lookupKey_dictInsert]
        exact ih r1 (f1 ++ [k]) sub v h w r2 (f2 ++ [k])
      | none => simp [hl] at h
    all_goals simp [getValueAux] at h

/-- Resolution of a concatenated path factors through the value the
first half resolves to. -/
theorem getValueAux_append :
    ∀ (ks : List String) (r : JSON) (f : List String) (cur v : JSON),
    getValueAux r f cur ks = .ok v →
    ∀ (ks2 : List String),
    getValueAux r f cur (ks ++ ks2) = getValueAux r (f ++ ks) v ks2 := by
  intro ks
  induction ks with
  | nil =>
    intro r f cur v h ks2
    obtain rfl : cur = v := by simpa [getValueAux] using h
    simp
  | cons k ks ih =>
    intro r f cur v h ks2
    cases cur
    case obj kvs =>
      simp only [getValueAux] at h
      cases hl : lookupKey kvs k with
      | some sub =>
        simp only [hl] at h
        have hrec := ih r (f ++ [k]) sub v h ks2
        rw [show ((f ++ [k]) ++ ks) = f ++ (k :: ks) by simp] at hrec
        simp only [List.cons_append, getValueAux, hl]
        exact hrec
      | none => simp [hl] at h
    all_goals simp [getValueAux] at h

/-- A value recognized as a property is not a dict. -/
theorem isJSONObject_eq_false_of_isJSONProperty (j : JSON)
    (h : isJSONProperty j = true) : isJSONObject j = false := by
  cases j <;> simp_all [isJSONProperty, isJSONObject]

/-- Stepping the resolution loop on a non-dict current node raises
`AttributeError` (from `_containsKey` evaluating `.keys()`). -/
theorem getValueAux_nonobj (r : JSON) (f : List String) (v : JSON)
    (hv : isJSONObject v = false) (k : String) (ks : List String) :
    getValueAux r f v (k :: ks) = .error .attributeError := by
  cases v <;> simp_all [getValueAux, isJSONObject]

/-! ## Claim theorems -/

/-- C3: the claim says a failed lookup reports the key set of the
object AT THE LEVEL WHERE RESOLUTION FAILED.  The code instead passes
`tuple(rawData.keys())` — the keys of the ROOT — at every depth.  On
the document `{"a": {"b": 1}}` with path `("a", "c")`, resolution fails
inside the object `{"b": 1}` whose key set is `["b"]`, yet the raised
`JSONKeyNotFoundError` carries `["a"]`, the root's key set.  This
contradicts the error class's own docstring ("all the keys of the
object in which the wrong key could not be found"). -/
theorem C3_keyNotFound_carries_root_keys :
    getValueOfKeys (.obj [("a", .obj [("b", .num 1)])]) ["a", "c"]
      = .error (.keyNotFound "c" ["a"] ["a"])
    ∧ jsonKeys (.obj [("b", .num 1)]) = ["b"]
    ∧ (["a"] : List String) ≠ ["b"] := by
  refine ⟨rfl, rfl, by simp⟩

/-- C4: `setProperty` on a non-empty path whose last key is present in
its parent object but maps to an Object fails with `NotAPropertyError`
and performs no write: the stored file is unchanged. -/
theorem C4_setProperty_object_no_write :
    ∀ (d : JSON) (b : Bool) (ks : List String) (k : String)
      (kvs sub : List (String × JSON)) (value : JSON),
    getValueOfKeys d ks = .ok (.obj kvs) →
    lookupKey kvs k = some (.obj sub) →
    setProperty (.doc d b) (ks ++ [k]) value
      = (.error (.notAProperty (.obj sub)), .doc d b) := by
  intro d b ks k kvs sub value hres hlook
  simp only [setProperty, readJSONFile, setPropertyCore, List.dropLast_concat,
    List.getLast?_concat, hres, hlook, isJSONObject]
  simp

/-- Witness for C4 on `{"a": {"b": 1}}` with path `("a",)`. -/
theorem C4_witness :
    setProperty (.doc (.obj [("a", .obj [("b", .num 1)])]) false) ["a"] (.num 5)
      = (.error (.notAProperty (.obj [("b", .num 1)])),
         .doc (.obj [("a", .obj [("b", .num 1)])]) false) := by
  exact C4_setProperty_object_no_write (.obj [("a", .obj [("b", .num 1)])]) false
    [] "a" [("a", .obj [("b", .num 1)])] [("b", .num 1)] (.num 5) rfl rfl

/-- C6: `isFormatCorrect` returns `false` exactly on an existing file
whose bytes fail to parse, `true` exactly on an existing file whose
bytes parse, and lets the `FileNotFoundError` of a missing file
propagate instead of converting it to `false`. -/
theorem C6_isFormatCorrect_cases :
    ∀ (s : String) (j : JSON) (n : Bool),
    isFormatCorrect (.malformed s) = (.ok false, .malformed s)
    ∧ isFormatCorrect (.doc j n) = (.ok true, .doc j n)
    ∧ isFormatCorrect .absent = (.error .fileNotFound, .absent) := by
  intro s j n
  exact ⟨rfl, rfl, rfl⟩

/-- C7: re-indenting an existing valid JSON file twice leaves the file
byte-identical to re-indenting it once, for any initial formatting:
both end at the unique normalized serialization of the same tree. -/
theorem C7_indent_idempotent :
    ∀ (j : JSON) (n : Bool),
    (indentJSONFile ((indentJSONFile (.doc j n)).2)).2
      = (indentJSONFile (.doc j n)).2 := by
  intro j n
  rfl

/-- C8: on JSON-mapped values a property is exactly a non-dict (the
five recognized shapes null/boolean/number/string/array), dicts are
exactly the objects, every JSON value is exactly one of the two, and a
value of any other runtime shape is treated as neither — in particular
never silently as a property (the add operations then raise
`TypeError`). -/
theorem C8_classification_dichotomy :
    (∀ j : JSON, isJSONProperty j = !isJSONObject j)
    ∧ (∀ j : JSON, isJSONObject j = true ↔ ∃ kvs, j = .obj kvs)
    ∧ (∀ j : JSON, isJSONProperty j = true ∨ isJSONObject j = true)
    ∧ (∀ j : JSON, ¬(isJSONProperty j = true ∧ isJSONObject j = true))
    ∧ pyIsJSONProperty .otherShape = false
    ∧ pyIsJSONObject .otherShape = false := by
  refine ⟨?_, ?_, ?_, ?_, rfl, rfl⟩ <;>
    intro j <;> cases j <;> simp [isJSONProperty, isJSONObject]

/-- C9: on an existing well-formed document, `setProperty` and
`setObject` with an empty path fail with the unhandled `IndexError`
from evaluating `keys[-1]` on an empty tuple — not one of the library's
named failure kinds — before any mutation or write, leaving the stored
file unchanged. -/
theorem C9_empty_path_indexError :
    ∀ (d : JSON) (b : Bool) (value object : JSON),
    setProperty (.doc d b) [] value = (.error .indexError, .doc d b)
    ∧ setObject (.doc d b) [] object = (.error .indexError, .doc d b) := by
  intro d b value object
  exact ⟨rfl, rfl⟩

/-- C10: the read-only operations `getProperty`, `getObject`,
`containsProperty`, `containsObject` and `isFormatCorrect` never
write: whatever the file content (absent, malformed or a document) and
whatever the path, the content after the call is the content before. -/
theorem C10_readonly_frame :
    ∀ (st : FileContent) (keys : List String),
    (getProperty st keys).2 = st
    ∧ (getObject st keys).2 = st
    ∧ (containsProperty st keys).2 = st
    ∧ (containsObject st keys).2 = st
    ∧ (isFormatCorrect st).2 = st := by
  intro st keys
  cases st <;> exact ⟨rfl, rfl, rfl, rfl, rfl⟩

/-- C1 counterexample: the claim states that reaching a Property before
the path is exhausted fails with the `KeyNotFound` kind.  On the
well-formed document `{"a": 1}` with path `("a", "b")`, resolution
reaches the Property `1` with `"b"` still unconsumed, and the
operation fails with the unhandled `AttributeError` from
`1 .keys()` — not with `JSONKeyNotFoundError`. -/
theorem C1_counterexample :
    getValueOfKeys (.obj [("a", .num 1)]) ["a", "b"] = .error .attributeError
    ∧ isKeyNotFoundResult (getValueOfKeys (.obj [("a", .num 1)]) ["a", "b"])
        = false
    ∧ (getProperty (.doc (.obj [("a", .num 1)]) false) ["a", "b"]).1
        = .error .attributeError := by
  exact ⟨rfl, rfl, rfl⟩

/-- C1 (amended): whenever path resolution reaches, before the path is
exhausted, a current node that is a Property, the operation fails with
the unhandled `AttributeError` raised by `_containsKey` calling
`.keys()` on a non-dict — not with `KeyNotFound` — and the mutating
operations perform no write. -/
theorem C1_amended_midpath_property_attributeError :
    ∀ (d : JSON) (keys : List String) (i : Nat) (v : JSON),
    i < keys.length →
    getValueOfKeys d (keys.take i) = .ok v →
    isJSONObject v = false →
    getValueOfKeys d keys = .error .attributeError
    ∧ ∀ (b : Bool) (pv : PyVal) (newKey lastKey : String) (value object : JSON),
        (getProperty (.doc d b) keys).1 = .error .attributeError
        ∧ (getObject (.doc d b) keys).1 = .error .attributeError
        ∧ addProperty (.doc d b) keys newKey pv
            = (.error .attributeError, .doc d b)
        ∧ addObject (.doc d b) keys newKey pv
            = (.error .attributeError, .doc d b)
        ∧ setProperty (.doc d b) (keys ++ [lastKey]) value
            = (.error .attributeError, .doc d b)
        ∧ setObject (.doc d b) (keys ++ [lastKey]) object
            = (.error .attributeError, .doc d b) := by
  intro d keys i v hi hres hv
  have happ := getValueAux_append (keys.take i) d [] d v hres (keys.drop i)
  rw [List.take_append_drop] at happ
  have hdrop : keys.drop i = keys[i] :: keys.drop (i + 1) :=
    List.drop_eq_getElem_cons hi
  have hmain : getValueOfKeys d keys = .error .attributeError := by
    show getValueAux d [] d keys = _
    rw [happ, hdrop]
    exact getValueAux_nonobj _ _ _ hv _ _
  refine ⟨hmain, ?_⟩
  intro b pv newKey lastKey value object
  refine ⟨?_, ?_, ?_, ?_, ?_, ?_⟩ <;>
    simp only [getProperty, getObject, addProperty, addObject, setProperty,
      setObject, readJSONFile, getPropertyCore, getObjectCore, addPropertyCore,
      addObjectCore, setPropertyCore, setObjectCore, List.dropLast_concat,
      hmain]

/-- Witness for the amended C1 at `{"x": 1}` with path `("x", "y")`. -/
theorem C1_witness :
    getValueOfKeys (.obj [("x", .num 1)]) ["x", "y"] = .error .attributeError
    ∧ (getProperty (.doc (.obj [("x", .num 1)]) true) ["x", "y"]).1
        = .error .attributeError := by
  have h := C1_amended_midpath_property_attributeError (.obj [("x", .num 1)])
    ["x", "y"] 1 (.num 1) (by decide) rfl rfl
  exact ⟨h.1, (h.2 true (.json .null) "n" "n" .null .null).1⟩

/-- C2 counterexample: the claim states `containsProperty` and
`containsObject` never raise when the path fails to resolve, returning
`false` also when an intermediate node is not an Object.  On the
well-formed document `{"a": 1}` with path `("a", "b")` both raise the
`AttributeError` of the resolution instead of returning `false`: the
`except` clause catches only `JSONKeyNotFoundError`. -/
theorem C2_counterexample :
    (containsProperty (.doc (.obj [("a", .num 1)]) false) ["a", "b"]).1
      = .error .attributeError
    ∧ (containsObject (.doc (.obj [("a", .num 1)]) false) ["a", "b"]).1
      = .error .attributeError := by
  exact ⟨rfl, rfl⟩

/-- C2 (amended): `containsProperty`/`containsObject` return `false`
exactly when the resolution fails with `JSONKeyNotFoundError` (a key
absent from the Object being navigated, at any depth); when the
resolution instead hits a non-Object mid-path, its `AttributeError`
propagates out of them. -/
theorem C2_amended_contains_false_only_on_keyNotFound :
    ∀ (d : JSON) (b : Bool) (keys : List String),
    (∀ (k : String) (a f : List String),
        getValueOfKeys d keys = .error (.keyNotFound k a f) →
        (containsProperty (.doc d b) keys).1 = .ok false
        ∧ (containsObject (.doc d b) keys).1 = .ok false)
    ∧ (getValueOfKeys d keys = .error .attributeError →
        (containsProperty (.doc d b) keys).1 = .error .attributeError
        ∧ (containsObject (.doc d b) keys).1 = .error .attributeError) := by
  intro d b keys
  constructor
  · intro k a f h
    constructor <;>
      simp only [containsProperty, containsObject, readJSONFile,
        containsPropertyCore, containsObjectCore, h]
  · intro h
    constructor <;>
      simp only [containsProperty, containsObject, readJSONFile,
        containsPropertyCore, containsObjectCore, h]

/-- Witness for the amended C2: a missing key maps to `false`, a
mid-path Property raises. -/
theorem C2_witness :
    (containsProperty (.doc (.obj [("a", .num 1)]) true) ["z"]).1 = .ok false
    ∧ (containsObject (.doc (.obj [("a", .num 1)]) true) ["a", "b"]).1
        = .error .attributeError := by
  have h1 := C2_amended_contains_false_only_on_keyNotFound
    (.obj [("a", .num 1)]) true ["z"]
  have h2 := C2_amended_contains_false_only_on_keyNotFound
    (.obj [("a", .num 1)]) true ["a", "b"]
  exact ⟨(h1.1 "z" ["a"] [] rfl).1, (h2.2 rfl).2⟩

/-- C5: on an existing document, for a path resolving to an Object, a
key absent from it and a property-shaped value, `addProperty` succeeds
and persists; `getProperty` on path + newKey then returns the inserted
value; and a second `addProperty` with the same key fails with
`JSONKeyAlreadyExists` and leaves the stored document unchanged. -/
theorem C5_addProperty_get_roundtrip :
    ∀ (d : JSON) (b : Bool) (keys : List String) (kvs : List (String × JSON))
      (newKey : String) (v : JSON),
    getValueOfKeys d keys = .ok (.obj kvs) →
    lookupKey kvs newKey = none →
    isJSONProperty v = true →
    ∃ (d' : JSON) (a f : List String),
      addProperty (.doc d b) keys newKey (.json v) = (.ok (), .doc d' true)
      ∧ (getProperty (.doc d' true) (keys ++ [newKey])).1 = .ok v
      ∧ addProperty (.doc d' true) keys newKey (.json v)
          = (.error (.keyAlreadyExists newKey a f), .doc d' true) := by
  intro d b keys kvs newKey v hres hfresh hprop
  have hres' : getValueOfKeys (setAtKeys d keys (.obj (dictInsert kvs newKey v)))
      keys = .ok (.obj (dictInsert kvs newKey v)) :=
    getValueAux_setAtKeys keys d [] d (.obj kvs) hres
      (.obj (dictInsert kvs newKey v))
      (setAtKeys d keys (.obj (dictInsert kvs newKey v))) []
  have happ := getValueAux_append keys
    (setAtKeys d keys (.obj (dictInsert kvs newKey v))) []
    (setAtKeys d keys (.obj (dictInsert kvs newKey v)))
    (.obj (dictInsert kvs newKey v)) hres' [newKey]
  have hres3 : getValueOfKeys (setAtKeys d keys (.obj (dictInsert kvs newKey v)))
      (keys ++ [newKey]) = .ok v := by
    show getValueAux _ [] _ (keys ++ [newKey]) = .ok v
    rw [happ]
    simp [getValueAux, lookupKey_dictInsert]
  have hobj : isJSONObject v = false :=
    isJSONObject_eq_false_of_isJSONProperty v hprop
  refine ⟨setAtKeys d keys (.obj (dictInsert kvs newKey v)),
    (dictInsert kvs newKey v).map Prod.fst, keys, ?_, ?_, ?_⟩
  · simp only [addProperty, readJSONFile, addPropertyCore, hres, hfresh,
      pyIsJSONProperty, hprop, Option.isSome_none, Bool.not_true,
      writeJSONFile]
    simp
  · simp only [getProperty, readJSONFile, getPropertyCore, hres3, hobj]
    simp
  · simp only [addProperty, readJSONFile, addPropertyCore, hres',
      lookupKey_dictInsert, Option.isSome_some]
    simp

/-- Witness for C5 on `{"a": {"b": 1}}`, inserting `"c": "x"` under
`("a",)`. -/
theorem C5_witness :
    ∃ (d' : JSON) (a f : List String),
      addProperty (.doc (.obj [("a", .obj [("b", .num 1)])]) false) ["a"] "c"
          (.json (.str "x")) = (.ok (), .doc d' true)
      ∧ (getProperty (.doc d' true) (["a"] ++ ["c"])).1 = .ok (.str "x")
      ∧ addProperty (.doc d' true) ["a"] "c" (.json (.str "x"))
          = (.error (.keyAlreadyExists "c" a f), .doc d' true) := by
  exact C5_addProperty_get_roundtrip (.obj [("a", .obj [("b", .num 1)])]) false
    ["a"] [("b", .num 1)] "c" (.str "x") rfl rfl rfl
